import Mathlib

set_option maxRecDepth 8000

/-!
Verification development for the EIA bulk-data connector
(`main.py`, `process_dataset.py`, `assets/series/series.py`,
`assets/prices/prices.py`).

The development shallowly embeds the record-normalization algorithm, the
checkpoint/staleness logic and the batch supervisor as executable Lean
definitions, and proves the specified properties about them.

Conventions of the embedding:
* A decoded JSON value is `JVal`.  A decoded JSON object is represented by
  the ordered list of its key/value pairs (as produced by `json.loads`,
  whose keys are distinct and kept in insertion order).
* One line of the bulk-export blob is `RawLine`: blank (only whitespace),
  invalid (`json.loads` raises `JSONDecodeError`), or parsed to a `JVal`.
* Python floats are `PyFloat`: a finite rational, a signed infinity, or
  NaN.  JSON numbers are modelled as exact rationals.
* Uncaught Python exceptions are modelled by `Except`/`Option PyError`.
-/

/-- A decoded JSON value, as produced by `json.loads` on one bulk-export
line.  Objects carry their fields as an ordered association list.
`json.loads` decodes integer literals to arbitrary-precision Python ints
(`int`) and float literals to Python floats (`num`); a float value is
modelled by its exact decimal value as a rational, abstracting from
binary64 rounding, so `num` covers the finite decoded floats (a float
literal so large that it already decodes to infinity is outside the
model; the overflow behaviour of `float()` itself, on strings and on
integers, is modelled explicitly below). -/
inductive JVal where
  | null
  | bool (b : Bool)
  | int (n : ℤ)
  | num (q : ℚ)
  | str (s : String)
  | arr (items : List JVal)
  | obj (fields : List (String × JVal))

/-- A Python float value: finite (exact rational), infinite, or NaN. -/
inductive PyFloat where
  | finite (q : ℚ)
  | inf (pos : Bool)
  | nan
deriving Repr, DecidableEq

/-- An uncaught Python exception of the modelled code paths. -/
inductive PyError where
  | attributeError
  | typeError
  | overflowError
  | uploadError
deriving Repr, DecidableEq

/-- Result of a call to Python `float(value)`: a float, or the raised
exception class.  `ValueError` and `TypeError` are caught at the call
sites of the normalizer; `OverflowError` is not. -/
inductive FloatRes where
  | val (f : PyFloat)
  | valueError
  | typeError
  | overflowError
deriving Repr, DecidableEq

/-- Dictionary lookup, `d[k]` / `k in d` backing: first binding of `k`
(keys of a decoded object are distinct, so first = only). -/
def dictGet (d : List (String × JVal)) (k : String) : Option JVal :=
  match d with
  | [] => none
  | kv :: rest => if kv.1 == k then some kv.2 else dictGet rest k

/-- Dictionary assignment `d[k] = v`: overwrite the binding in place when
the key is present, else append a new binding (Python dict semantics). -/
def dictSet (d : List (String × JVal)) (k : String) (v : JVal) :
    List (String × JVal) :=
  match d with
  | [] => [(k, v)]
  | kv :: rest =>
    if kv.1 == k then (k, v) :: rest else kv :: dictSet rest k v

/-- Membership test of the sentinel list in
`value not in [NM, NA, None, empty]`: Python `in` compares with `==`, and
only `None` and equal strings compare equal to the listed sentinels. -/
def isSentinel (v : JVal) : Bool :=
  match v with
  | .null => true
  | .str s => s == "NM" || s == "NA" || s == ""
  | _ => false

/-- Whitespace stripped by Python `float(str)` before parsing. -/
def isPyWs (c : Char) : Bool :=
  c == ' ' || c == '\t' || c == '\n' || c == '\r' ||
  c == Char.ofNat 11 || c == Char.ofNat 12

/-- Strip leading and trailing whitespace from a character list. -/
def trimWs (cs : List Char) : List Char :=
  ((cs.dropWhile isPyWs).reverse.dropWhile isPyWs).reverse

/-- Numeric value of a list of ASCII digits (most significant first). -/
def digitsToNat (ds : List Char) : ℕ :=
  ds.foldl (fun acc c => acc * 10 + (c.toNat - 48)) 0

/-- Scanner for a run of decimal digits with PEP 515 underscores.
`afterD` records that the previously consumed character was a digit (so an
underscore may follow); `pend` that it was a not-yet-justified underscore
(so a digit must follow, otherwise the run ended before that underscore
and it is returned with the rest).  Collects the digits with underscores
removed, paired with the unconsumed rest. -/
def digitRunAux : List Char → Bool → Bool → List Char × List Char
  | [], _, pend => ([], if pend then ['_'] else [])
  | c :: cs, afterD, pend =>
    if c.isDigit then
      let p := digitRunAux cs true false
      (c :: p.1, p.2)
    else if c == '_' && afterD && !pend then
      digitRunAux cs false true
    else
      ([], (if pend then ['_'] else []) ++ c :: cs)

/-- A maximal run of decimal digits, allowing a single underscore between
two digits (Python's float literals accept these): returns the digits
with underscores removed and the unconsumed rest. -/
def digitRun (cs : List Char) : List Char × List Char :=
  digitRunAux cs false false

/-- The magnitude from which conversion to a binary64 float rounds past
the largest finite double (ties-to-even): an integer of at least this
magnitude makes `float(int)` raise `OverflowError`, and a decimal string
of at least this magnitude makes `float(str)` return an infinity.  The
value is `2 ^ 1024 - 2 ^ 970`, written as a literal so that concrete
comparisons reduce in one step (see `ovfInt_eq`). -/
def ovfInt : ℤ := 179769313486231580793728971405303415079934132710037826936173778980444968292764750946649017977587207096330286416692887910946555547851940402630657488671505820681908902000708383676273854845817711531764475730270069855571366959622842914819860834936475292719074168444365510704342711559699508093042880177904174497792

/-- The same overflow threshold as a rational, for the string parser. -/
def ovfQ : ℚ := 179769313486231580793728971405303415079934132710037826936173778980444968292764750946649017977587207096330286416692887910946555547851940402630657488671505820681908902000708383676273854845817711531764475730270069855571366959622842914819860834936475292719074168444365510704342711559699508093042880177904174497792

set_option exponentiation.threshold 1100 in
theorem ovfInt_eq : ovfInt = 2 ^ 1024 - 2 ^ 970 := by
  unfold ovfInt
  norm_num

set_option exponentiation.threshold 1100 in
theorem ovfQ_eq : ovfQ = 2 ^ 1024 - 2 ^ 970 := by
  unfold ovfQ
  norm_num

/-- Parse the unsigned decimal part of a Python float literal:
`digits [. digits] [(e|E) [sign] digits]`, requiring at least one mantissa
digit and, when an exponent marker is present, at least one exponent digit
with nothing trailing; underscores are accepted between digits.  The value
is the exact rational (binary64 rounding, including subnormal rounding
toward zero, is abstracted; the overflow to infinity is applied by the
caller). -/
def parseDecimal (cs : List Char) : Option ℚ :=
  let ip := digitRun cs
  let intDs := ip.1
  let q :=
    match ip.2 with
    | '.' :: t => digitRun t
    | _ => ([], ip.2)
  let fracDs := q.1
  if intDs.isEmpty && fracDs.isEmpty then none
  else
    let mant : ℚ :=
      (digitsToNat intDs : ℚ) + (digitsToNat fracDs : ℚ) / (10 : ℚ) ^ fracDs.length
    match q.2 with
    | [] => some mant
    | e :: t =>
      if e == 'e' || e == 'E' then
        let r :=
          match t with
          | '+' :: u => ((1 : ℤ), u)
          | '-' :: u => ((-1 : ℤ), u)
          | u => ((1 : ℤ), u)
        let ep := digitRun r.2
        if ep.1.isEmpty || !ep.2.isEmpty then none
        else some (mant * (10 : ℚ) ^ (r.1 * (digitsToNat ep.1 : ℤ)))
      else none

/-- Python `float(s)` on a string: strip whitespace, take an optional
sign, then accept `inf`/`infinity`/`nan` case-insensitively or a decimal
literal; anything else raises `ValueError`.  A literal whose magnitude
reaches the double range bound yields a signed infinity (C `strtod`
semantics), never an error. -/
def pyStrToFloat (s : String) : FloatRes :=
  let cs := trimWs s.data
  let signed :=
    match cs with
    | '+' :: t => (false, t)
    | '-' :: t => (true, t)
    | t => (false, t)
  let neg := signed.1
  let body := signed.2
  let lower := body.map Char.toLower
  if lower == "inf".data || lower == "infinity".data then
    .val (.inf !neg)
  else if lower == "nan".data then
    .val .nan
  else
    match parseDecimal body with
    | some q =>
      if ovfQ ≤ q then .val (.inf !neg)
      else .val (.finite (if neg then -q else q))
    | none => .valueError

/-- Python `float(value)` on a decoded JSON value: floats pass through,
booleans convert, an int converts exactly unless its magnitude is out of
double range, in which case `float` raises `OverflowError` (uncaught at
the normalizer's call sites); strings are parsed; `None`, lists and
objects raise `TypeError` (caught). -/
def pyFloatOfJVal (v : JVal) : FloatRes :=
  match v with
  | .int n =>
    if ovfInt ≤ n ∨ n ≤ -ovfInt then .overflowError
    else .val (.finite (n : ℚ))
  | .num q => .val (.finite q)
  | .bool b => .val (.finite (if b then 1 else 0))
  | .str s => pyStrToFloat s
  | _ => .typeError

/-- The value coercion of the normalizer:
`value = float(value) if value not in [NM, NA, None, empty] else None`,
with `except (ValueError, TypeError)` mapping those two errors to `None`
(the pair is dropped) while an `OverflowError` propagates uncaught. -/
def coerceValue (v : JVal) : Except PyError (Option PyFloat) :=
  if isSentinel v then .ok none
  else
    match pyFloatOfJVal v with
    | .val f => .ok (some f)
    | .valueError => .ok none
    | .typeError => .ok none
    | .overflowError => .error .overflowError

/-- Python `str(value)` as used on timestamps.  The string and int cases
are exact; the rendering of the remaining decoded shapes is abstracted by
fixed markers (they are never relied upon). -/
def pyStr (v : JVal) : String :=
  match v with
  | .str s => s
  | .int n => toString n
  | .bool b => if b then "True" else "False"
  | .null => "None"
  | .num q => if q.den = 1 then toString q.num else toString q
  | .arr _ => "<list>"
  | .obj _ => "<dict>"

example : coerceValue (.str "150.5") = .ok (some (.finite (301 / 2))) := by
  simp +decide [coerceValue, isSentinel, pyFloatOfJVal, pyStrToFloat,
    trimWs, isPyWs, parseDecimal, digitRun, digitRunAux, digitsToNat, ovfQ]
  norm_num

example : coerceValue (.str "1_0") = .ok (some (.finite 10)) := by
  simp +decide [coerceValue, isSentinel, pyFloatOfJVal, pyStrToFloat,
    trimWs, isPyWs, parseDecimal, digitRun, digitRunAux, digitsToNat, ovfQ]

example : coerceValue (.str "1e400") = .ok (some (.inf true)) := by
  simp +decide [coerceValue, isSentinel, pyFloatOfJVal, pyStrToFloat,
    trimWs, isPyWs, parseDecimal, digitRun, digitRunAux, digitsToNat, ovfQ]
  norm_num

example : coerceValue (.str "NM") = .ok none := rfl

example : coerceValue (.str "NaN") = .ok (some .nan) := rfl

example : coerceValue (.str "1__0") = .ok none := rfl

example : coerceValue (.int 5) = .ok (some (.finite 5)) := rfl

example : coerceValue (.int 10000000000000000000000000000000000000000000000000000000000000000000000000000000000000000000000000000000000000000000000000000000000000000000000000000000000000000000000000000000000000000000000000000000000000000000000000000000000000000000000000000000000000000000000000000000000000000000000000000000000000000000000000000000000000000000000000000000000000000000000000000000000000000000000000000000000000000) = .error .overflowError := rfl

/-- One line of the decompressed bulk-export blob, after splitting on
newlines: blank (only whitespace, skipped before parsing), invalid
(`json.loads` raises `JSONDecodeError`), or parsed to a JSON value. -/
inductive RawLine where
  | blank
  | invalid
  | parsed (v : JVal)

/-- A metadata table row: the decoded record minus its `data` field, plus
whatever fields the extractor injects.  Kept as an ordered dictionary. -/
def MetaRow := List (String × JVal)

/-- A fact table row as appended to `prices_data`:
`series_id` is the raw decoded value of the record's `series_id` field,
`dataset` the dataset code argument, `timestamp` the stringified first
pair component, `value` the coerced float. -/
structure FactRow where
  series_id : JVal
  dataset : String
  timestamp : String
  value : PyFloat

/-- The per-pair step of the `for date_val in obj['data']` loop: only
exactly-2-element lists are considered, the value is coerced, and the pair
is dropped (`.ok none`) unless the coercion produced a number; an
uncaught `OverflowError` from the coercion propagates. -/
def mkFact (code : String) (sid : JVal) (item : JVal) :
    Except PyError (Option FactRow) :=
  match item with
  | .arr [d, v] =>
    match coerceValue v with
    | .error e => .error e
    | .ok (some f) => .ok (some ⟨sid, code, pyStr d, f⟩)
    | .ok none => .ok none
  | _ => .ok none

/-- The whole `for date_val in obj['data']` loop: rows accumulate in pair
order; the first uncaught exception aborts the record (and with it the
dataset, since nothing above the line loop catches it). -/
def collectFacts (code : String) (sid : JVal) :
    List JVal → Except PyError (List FactRow)
  | [] => .ok []
  | it :: rest =>
    match mkFact code sid it with
    | .error e => .error e
    | .ok o =>
      match collectFacts code sid rest with
      | .error e => .error e
      | .ok fs => .ok (o.toList ++ fs)

/-- The dataset code and display name passed to `process_dataset`. -/
structure Ctx where
  code : String
  name : String

/-- The loop body of `process_dataset` on one successfully decoded line:
build the metadata row (all fields except `data`, plus `dataset_code` and
`dataset_name`), and the fact rows when the record has a `series_id` and a
`data` list.  A decoded value that is not an object raises
`AttributeError` at `obj.items()`, which the loop does not catch. -/
def normalizeParsed (ctx : Ctx) (v : JVal) :
    Except PyError (MetaRow × List FactRow) :=
  match v with
  | .obj fields =>
    let metadata := fields.filter (fun kv => !(kv.1 == "data"))
    let metadata := dictSet metadata "dataset_code" (.str ctx.code)
    let metadata := dictSet metadata "dataset_name" (.str ctx.name)
    match dictGet fields "series_id", dictGet fields "data" with
    | some sid, some (.arr items) =>
      match collectFacts ctx.code sid items with
      | .error e => .error e
      | .ok fs => .ok (metadata, fs)
    | _, _ => .ok (metadata, [])
  | _ => .error .attributeError

/-- One iteration of the `process_dataset` line loop as a function of the
raw line: blank lines are skipped before parsing, a `JSONDecodeError` is
caught (`continue`), and a decoded line is handed to `normalizeParsed`. -/
def normalizeRawLine (ctx : Ctx) (l : RawLine) :
    Except PyError (Option MetaRow × List FactRow) :=
  match l with
  | .blank => .ok (none, [])
  | .invalid => .ok (none, [])
  | .parsed v =>
    match normalizeParsed ctx v with
    | .ok (m, fs) => .ok (some m, fs)
    | .error e => .error e

/-- The full accumulation loop of `process_dataset` over the blob's lines:
`series_data` and `prices_data` grow in line order; an uncaught exception
aborts the whole dataset. -/
def processLines (ctx : Ctx) : List RawLine →
    Except PyError (List MetaRow × List FactRow)
  | [] => .ok ([], [])
  | l :: rest =>
    match normalizeRawLine ctx l with
    | .error e => .error e
    | .ok (m, fs) =>
      match processLines ctx rest with
      | .error e => .error e
      | .ok (ms, gs) => .ok (m.toList ++ ms, fs ++ gs)

/-- Python `series_id.split(sep)[0]` for `sep = '.'`: the prefix of the
string before its first `'.'` (the whole string when there is none). -/
def splitFirstDot (s : String) : String :=
  ⟨s.data.takeWhile (fun c => !(c == '.'))⟩

/-- The per-record body of `extract_series_metadata` (series.py): drop the
`data` field, then default the `dataset` field to the `series_id` prefix
before the first `'.'` when the record has a `series_id` but no `dataset`.
`metadata['series_id'].split('.')` raises `AttributeError` when the value
is not a string. -/
def extractMetaRow (fields : List (String × JVal)) :
    Except PyError MetaRow :=
  let metadata := fields.filter (fun kv => !(kv.1 == "data"))
  if (dictGet metadata "dataset").isSome then .ok metadata
  else
    match dictGet metadata "series_id" with
    | none => .ok metadata
    | some (.str sid) =>
      .ok (dictSet metadata "dataset" (.str (splitFirstDot sid)))
    | some _ => .error .attributeError

/-- The line loop of `extract_series_metadata` (series.py): blank lines
skipped, `JSONDecodeError` caught, a decoded non-object raises
`AttributeError` at `obj.items()`. -/
def extract_series_metadata : List RawLine → Except PyError (List MetaRow)
  | [] => .ok []
  | l :: rest =>
    match l with
    | .blank => extract_series_metadata rest
    | .invalid => extract_series_metadata rest
    | .parsed (.obj fields) =>
      match extractMetaRow fields with
      | .error e => .error e
      | .ok m =>
        match extract_series_metadata rest with
        | .error e => .error e
        | .ok ms => .ok (m :: ms)
    | .parsed _ => .error .attributeError

/-- Python substring membership `t in s` on strings. -/
def strContains (s t : String) : Bool :=
  s.data.tails.any (fun suffix => t.data.isPrefixOf suffix)

/-- Python `t in xs` for a string `t` and a decoded JSON list `xs`:
elementwise `==`, which holds only for equal strings. -/
def listHasStr (xs : List JVal) (t : String) : Bool :=
  xs.any (fun v =>
    match v with
    | .str s => s == t
    | _ => false)

/-- The per-record body of `extract_time_series_data` (prices.py) on a
decoded line.  `'series_id' not in obj` raises `TypeError` on numbers,
booleans and `None`; on strings it is a substring test and on lists an
element test, after which `obj['data']` raises `TypeError` when both
membership tests pass.  On objects, records without `series_id` or a
`data` list are skipped and the pairs are folded exactly as in
`process_dataset`. -/
def extractTimeSeriesLine (code : String) (v : JVal) :
    Except PyError (List FactRow) :=
  match v with
  | .obj fields =>
    match dictGet fields "series_id", dictGet fields "data" with
    | some sid, some (.arr items) => collectFacts code sid items
    | _, _ => .ok []
  | .str s =>
    if strContains s "series_id" && strContains s "data" then
      .error .typeError
    else .ok []
  | .arr xs =>
    if listHasStr xs "series_id" && listHasStr xs "data" then
      .error .typeError
    else .ok []
  | _ => .error .typeError

/-- The line loop of `extract_time_series_data` (prices.py). -/
def extract_time_series_data (code : String) :
    List RawLine → Except PyError (List FactRow)
  | [] => .ok []
  | l :: rest =>
    match l with
    | .blank => extract_time_series_data code rest
    | .invalid => extract_time_series_data code rest
    | .parsed v =>
      match extractTimeSeriesLine code v with
      | .error e => .error e
      | .ok fs =>
        match extract_time_series_data code rest with
        | .error e => .error e
        | .ok gs => .ok (fs ++ gs)

/-- The mapping written by `save_state` for one tracking key: refresh
timestamp (modelled in seconds) and summary count, plus the dataset code.
`series_count` and `data_points` are both modelled by `countSummary`. -/
structure CkptRecord where
  lastUpdated : ℤ
  countSummary : ℕ
  datasetCode : String
deriving Repr, DecidableEq

/-- The durable key-value state store of the Staleness Tracker. -/
def Store := String → Option CkptRecord

/-- Overwrite-by-key write of `save_state`. -/
def saveState (key : String) (r : CkptRecord) (st : Store) : Store :=
  fun k => if k = key then some r else st k

/-- Python `dataset_code.lower()`. -/
def lowerCode (c : String) : String := c.map Char.toLower

/-- Tracking key of the series table of one dataset. -/
def seriesKey (c : String) : String := lowerCode c ++ "_series"

/-- Tracking key of the facts (prices) table of one dataset. -/
def pricesKey (c : String) : String := lowerCode c ++ "_prices"

/-- Whether the two `upload_data` calls of `process_dataset` succeed
(an upload that does not succeed raises). -/
structure UploadEnv where
  seriesOk : Bool
  pricesOk : Bool

/-- The prices half of the upload phase of `process_dataset`: skipped when
`prices_data` is empty; on a successful upload the prices checkpoint is
written; a failing upload raises before any write. -/
def uploadPrices (ctx : Ctx) (now : ℤ) (pricesData : List FactRow)
    (env : UploadEnv) (st : Store) : Option PyError × Store :=
  if pricesData.isEmpty then (none, st)
  else if env.pricesOk then
    (none, saveState (pricesKey ctx.code)
      ⟨now, pricesData.length, ctx.code⟩ st)
  else (some .uploadError, st)

/-- The upload-and-checkpoint phase of `process_dataset` (lines 85-109):
series table first, then prices table; each checkpoint is written
immediately after its own upload returns, and a raising upload aborts the
rest of the function. -/
def uploadPhase (ctx : Ctx) (now : ℤ) (seriesData : List MetaRow)
    (pricesData : List FactRow) (env : UploadEnv) (st : Store) :
    Option PyError × Store :=
  if seriesData.isEmpty then uploadPrices ctx now pricesData env st
  else if env.seriesOk then
    uploadPrices ctx now pricesData env
      (saveState (seriesKey ctx.code) ⟨now, seriesData.length, ctx.code⟩ st)
  else (some .uploadError, st)

/-- The whole of `process_dataset` after the download: normalize every
line, then upload both tables and write their checkpoints.  The first
component is the uncaught exception, if any; the second the state store
as left behind. -/
def runProcessDataset (ctx : Ctx) (now : ℤ) (lines : List RawLine)
    (env : UploadEnv) (st : Store) : Option PyError × Store :=
  match processLines ctx lines with
  | .error e => (some e, st)
  | .ok (seriesData, pricesData) =>
    uploadPhase ctx now seriesData pricesData env st

/-- Exit status of the single-dataset entry point (`process_dataset.py`
`main`): `process_dataset` raising is caught and turned into
`sys.exit(1)`; otherwise the process ends normally with status 0. -/
def singleMainExit (ctx : Ctx) (now : ℤ) (lines : List RawLine)
    (env : UploadEnv) (st : Store) : ℤ :=
  match (runProcessDataset ctx now lines env st).1 with
  | some _ => 1
  | none => 0

/-- One stored state mapping as read back by `load_state`: `none` for the
`last_updated` field models a mapping without that key.  An absent or
empty stored mapping is modelled by `none` at the `Option StoredState`
use sites (`not series_state` is also true for an empty mapping). -/
structure StoredState where
  lastUpdated : Option ℤ

/-- Age in whole days, `(datetime.now() - t).days`: floor division of the
elapsed seconds, as `timedelta.days` rounds toward minus infinity. -/
def daysAgo (now t : ℤ) : ℤ := Int.fdiv (now - t) 86400

/-- The staleness decision of `main.py` for one dataset, generalized over
the freshness window `w` (the source fixes `w = 30` days): stale when
either per-table state is missing or lacks `last_updated`, else when the
older of the two timestamps is at least `w` days old. -/
def needsUpdateW (w now : ℤ) (series prices : Option StoredState) : Bool :=
  match series with
  | none => true
  | some ss =>
    match ss.lastUpdated with
    | none => true
    | some su =>
      match prices with
      | none => true
      | some ps =>
        match ps.lastUpdated with
        | none => true
        | some pu => daysAgo now (min su pu) ≥ w

/-- The staleness decision of `main.py` with its hardcoded 30-day window. -/
def needsUpdate (now : ℤ) (series prices : Option StoredState) : Bool :=
  needsUpdateW 30 now series prices

/-- The freshness skip of `process_series` (series.py): refresh is skipped
exactly when a stored state with `last_updated` exists and is strictly
less than 30 days old. -/
def seriesFreshSkip (now : ℤ) (state : Option StoredState) : Bool :=
  match state with
  | some ss =>
    match ss.lastUpdated with
    | some lu => daysAgo now lu < 30
    | none => false
  | none => false

/-- One catalog entry of `EIA_HISTORICAL_DATASETS`. -/
structure Dataset where
  code : String
  name : String
  zipPath : String

/-- How one isolated subprocess run of `process_dataset.py` ends, as
observed by `process_dataset_subprocess`. -/
inductive UnitOutcome where
  | exited (rc : ℤ)
  | timedOut
  | spawnFailed

/-- The boolean outcome of `process_dataset_subprocess`: `True` exactly
when the subprocess exited with return code 0; a timeout or a spawn
failure is caught and reported as `False`. -/
def subprocessSuccess (o : UnitOutcome) : Bool :=
  match o with
  | .exited rc => rc == 0
  | .timedOut => false
  | .spawnFailed => false

/-- The supervisor loop of `main.py`: run every selected dataset in order,
one subprocess at a time, partitioning display names into
`successful` and `failed`. -/
def runBatch (outcome : Dataset → UnitOutcome) :
    List Dataset → List String × List String
  | [] => ([], [])
  | d :: rest =>
    let p := runBatch outcome rest
    if subprocessSuccess (outcome d) then (d.name :: p.1, p.2)
    else (p.1, d.name :: p.2)

/-- The batch entry point of `main.py`: select the stale datasets in
catalog order (reading both per-table states of each dataset), run the
supervisor loop over them, and return the final partition together with
the process exit status.  `main` returns normally on every path — dataset
failures only land in the `failed` list — so the status is 0. -/
def mainBatch (load : String → Option StoredState) (now : ℤ)
    (outcome : Dataset → UnitOutcome) (catalog : List Dataset) :
    (List String × List String) × ℤ :=
  let toProcess := catalog.filter (fun d =>
    needsUpdate now (load (seriesKey d.code)) (load (pricesKey d.code)))
  (runBatch outcome toProcess, 0)

/-! Helper lemmas. -/

theorem dictGet_dictSet_self (d : List (String × JVal)) (k : String)
    (v : JVal) : dictGet (dictSet d k v) k = some v := by
  induction d with
  | nil => simp [dictSet, dictGet]
  | cons kv rest ih =>
    by_cases h : kv.1 = k
    · simp [dictSet, dictGet, h]
    · simpa [dictSet, dictGet, h] using ih

theorem dictGet_filter_ne (d : List (String × JVal)) (bad k : String)
    (h : k ≠ bad) :
    dictGet (d.filter (fun kv => !(kv.1 == bad))) k = dictGet d k := by
  induction d with
  | nil => rfl
  | cons kv rest ih =>
    by_cases hb : kv.1 = bad
    · have hbk : bad ≠ k := fun e => h e.symm
      simp only [List.filter_cons]
      simpa [dictGet, hb, hbk] using ih
    · by_cases hk : kv.1 = k
      · simp [List.filter_cons, dictGet, hb, hk, h]
      · simp only [List.filter_cons]
        simpa [dictGet, hb, hk] using ih

theorem dictGet_dictSet_ne (d : List (String × JVal)) (k k2 : String)
    (v : JVal) (h : k2 ≠ k) :
    dictGet (dictSet d k v) k2 = dictGet d k2 := by
  have hkk : k ≠ k2 := fun e => h e.symm
  induction d with
  | nil => simp [dictSet, dictGet, hkk]
  | cons kv rest ih =>
    by_cases hk : kv.1 = k
    · simp [dictSet, dictGet, hk, hkk]
    · by_cases hk2 : kv.1 = k2
      · simp [dictSet, dictGet, hk, hk2, h]
      · simp [dictSet, dictGet, hk, hk2, ih]

theorem daysAgo_le_daysAgo (now : ℤ) {t t' : ℤ} (h : t' ≤ t) :
    daysAgo now t ≤ daysAgo now t' := by
  unfold daysAgo
  rw [Int.fdiv_eq_ediv _ (by norm_num), Int.fdiv_eq_ediv _ (by norm_num)]
  exact Int.ediv_le_ediv (by norm_num) (by omega)

theorem seriesKey_ne_pricesKey (c : String) :
    seriesKey c ≠ pricesKey c := by
  intro h
  have hdata : (lowerCode c).data ++ "_series".data
      = (lowerCode c).data ++ "_prices".data := by
    have h1 : (seriesKey c).data = (pricesKey c).data := congrArg _ h
    simp only [seriesKey, pricesKey, String.data_append] at h1
    exact h1
  have h2 : "_series".data = "_prices".data :=
    List.append_cancel_left hdata
  exact absurd h2 (by decide)

/-! Claim theorems. -/

/-- The input line of end-to-end scenario 1:
a record with `series_id` `NUC_STATUS.OUT.US-NA.D` and two data pairs, the
second carrying the sentinel `NM`. -/
def scenarioLine1 : JVal :=
  .obj [("series_id", .str "NUC_STATUS.OUT.US-NA.D"),
        ("data", .arr [.arr [.str "20240101", .num (150.5 : ℚ)],
                       .arr [.str "20240102", .str "NM"]])]

theorem normalizeParsed_ok_row (ctx : Ctx) (fields : List (String × JVal))
    (row : MetaRow) (fs : List FactRow)
    (h : normalizeParsed ctx (.obj fields) = .ok (row, fs)) :
    row = dictSet (dictSet (fields.filter (fun kv => !(kv.1 == "data")))
      "dataset_code" (.str ctx.code)) "dataset_name" (.str ctx.name) := by
  cases hs : dictGet fields "series_id" with
  | none =>
    simp only [normalizeParsed, hs] at h
    simp only [Except.ok.injEq, Prod.mk.injEq] at h
    exact h.1.symm
  | some sid =>
    cases hd : dictGet fields "data" with
    | none =>
      simp only [normalizeParsed, hs, hd] at h
      simp only [Except.ok.injEq, Prod.mk.injEq] at h
      exact h.1.symm
    | some dv =>
      cases dv <;>
        first
        | (simp only [normalizeParsed, hs, hd] at h
           simp only [Except.ok.injEq, Prod.mk.injEq] at h
           exact h.1.symm)
        | (rename_i items
           cases hc : collectFacts ctx.code sid items with
           | error e =>
             simp only [normalizeParsed, hs, hd, hc] at h
             exact absurd h (by simp)
           | ok gs =>
             simp only [normalizeParsed, hs, hd, hc] at h
             simp only [Except.ok.injEq, Prod.mk.injEq] at h
             exact h.1.symm)

/-- C1 counterexample: on the cited `process_dataset` path the scenario-1
record — which carries a `series_id` and no `dataset` field — is emitted
as a Metadata Row with only `series_id`, `dataset_code` and
`dataset_name`: its `dataset` field is absent, not `NUC_STATUS`. -/
theorem C1_no_default_counterexample :
    processLines ⟨"NUC_STATUS", "U.S. Nuclear Outages"⟩
        [.parsed scenarioLine1] =
      .ok ([[("series_id", .str "NUC_STATUS.OUT.US-NA.D"),
             ("dataset_code", .str "NUC_STATUS"),
             ("dataset_name", .str "U.S. Nuclear Outages")]],
           [⟨.str "NUC_STATUS.OUT.US-NA.D", "NUC_STATUS", "20240101",
             .finite (150.5 : ℚ)⟩]) ∧
    dictGet [("series_id", JVal.str "NUC_STATUS.OUT.US-NA.D"),
             ("dataset_code", JVal.str "NUC_STATUS"),
             ("dataset_name", JVal.str "U.S. Nuclear Outages")]
        "dataset" = none :=
  ⟨rfl, rfl⟩

/-- C1 (amended): the `dataset` defaulting belongs to the series.py
extractor alone: there, a parsed record with a `series_id` string but no
`dataset` field gets a `dataset` field equal to the `series_id` prefix
before the first `'.'`, no `dataset` field is added when `series_id` is
absent, and the scenario-1 line yields exactly one Metadata Row with
`dataset = NUC_STATUS`; the `process_dataset` path instead emits the
Metadata Row with its `dataset` field exactly as in the record (no
default applied). -/
theorem C1_metadata_dataset_default :
    (∀ (fields : List (String × JVal)) (sid : String),
      dictGet fields "dataset" = none →
      dictGet fields "series_id" = some (.str sid) →
      ∃ row : MetaRow, extractMetaRow fields = .ok row ∧
        dictGet row "dataset" = some (.str (splitFirstDot sid))) ∧
    (∀ fields : List (String × JVal),
      dictGet fields "dataset" = none →
      dictGet fields "series_id" = none →
      ∃ row : MetaRow, extractMetaRow fields = .ok row ∧
        dictGet row "dataset" = none) ∧
    extract_series_metadata [.parsed scenarioLine1] =
      .ok [[("series_id", .str "NUC_STATUS.OUT.US-NA.D"),
            ("dataset", .str "NUC_STATUS")]] ∧
    (∀ (ctx : Ctx) (fields : List (String × JVal)) (row : MetaRow)
      (fs : List FactRow),
      normalizeParsed ctx (.obj fields) = .ok (row, fs) →
      dictGet row "dataset" = dictGet fields "dataset") := by
  refine ⟨?_, ?_, ?_, ?_⟩
  · intro fields sid hds hsid
    have h1 : dictGet (fields.filter (fun kv => !(kv.1 == "data")))
        "dataset" = none := by
      rw [dictGet_filter_ne fields "data" "dataset" (by decide)]
      exact hds
    have h2 : dictGet (fields.filter (fun kv => !(kv.1 == "data")))
        "series_id" = some (.str sid) := by
      rw [dictGet_filter_ne fields "data" "series_id" (by decide)]
      exact hsid
    refine ⟨dictSet (fields.filter (fun kv => !(kv.1 == "data")))
      "dataset" (.str (splitFirstDot sid)), ?_, dictGet_dictSet_self _ _ _⟩
    simp [extractMetaRow, h1, h2]
  · intro fields hds hsid
    have h1 : dictGet (fields.filter (fun kv => !(kv.1 == "data")))
        "dataset" = none := by
      rw [dictGet_filter_ne fields "data" "dataset" (by decide)]
      exact hds
    have h2 : dictGet (fields.filter (fun kv => !(kv.1 == "data")))
        "series_id" = none := by
      rw [dictGet_filter_ne fields "data" "series_id" (by decide)]
      exact hsid
    refine ⟨fields.filter (fun kv => !(kv.1 == "data")), ?_, h1⟩
    simp [extractMetaRow, h1, h2]
  · rfl
  · intro ctx fields row fs hok
    rw [normalizeParsed_ok_row ctx fields row fs hok,
      dictGet_dictSet_ne _ _ _ _ (by decide),
      dictGet_dictSet_ne _ _ _ _ (by decide),
      dictGet_filter_ne _ _ _ (by decide)]

/-- Witness for C1 (amended) at concrete inputs: in series.py a record
`[series_id = A.B]` gets `dataset = A` and a record with neither field
stays without `dataset`; in `process_dataset` the scenario-1 record's
Metadata Row keeps `dataset` absent, exactly as in the record. -/
theorem C1_metadata_dataset_default_witness :
    (∃ row : MetaRow,
      extractMetaRow [("series_id", .str "A.B")] = .ok row ∧
      dictGet row "dataset" = some (.str (splitFirstDot "A.B"))) ∧
    (∃ row : MetaRow,
      extractMetaRow [("units", .str "MW")] = .ok row ∧
      dictGet row "dataset" = none) ∧
    dictGet [("series_id", JVal.str "NUC_STATUS.OUT.US-NA.D"),
             ("dataset_code", JVal.str "NUC_STATUS"),
             ("dataset_name", JVal.str "U.S. Nuclear Outages")]
        "dataset" =
      dictGet [("series_id", JVal.str "NUC_STATUS.OUT.US-NA.D"),
               ("data", JVal.arr [JVal.arr [.str "20240101",
                                            .num (150.5 : ℚ)],
                                  JVal.arr [.str "20240102", .str "NM"]])]
        "dataset" :=
  ⟨C1_metadata_dataset_default.1 [("series_id", .str "A.B")] "A.B" rfl rfl,
   C1_metadata_dataset_default.2.1 [("units", .str "MW")] rfl rfl,
   C1_metadata_dataset_default.2.2.2 ⟨"NUC_STATUS", "U.S. Nuclear Outages"⟩
     [("series_id", JVal.str "NUC_STATUS.OUT.US-NA.D"),
      ("data", JVal.arr [JVal.arr [.str "20240101", .num (150.5 : ℚ)],
                         JVal.arr [.str "20240102", .str "NM"]])]
     [("series_id", JVal.str "NUC_STATUS.OUT.US-NA.D"),
      ("dataset_code", JVal.str "NUC_STATUS"),
      ("dataset_name", JVal.str "U.S. Nuclear Outages")]
     [⟨.str "NUC_STATUS.OUT.US-NA.D", "NUC_STATUS", "20240101",
       .finite (150.5 : ℚ)⟩]
     rfl⟩

/-- Modelled from the spec's words (refinement comparison for the fact
count): an element of `data` qualifies when it is exactly a 2-element
`[timestamp, value]` pair whose value is not one of the sentinels and is
numerically parsable (the conversion returns a float). -/
def specPairQualifies (item : JVal) : Bool :=
  match item with
  | .arr [_, v] =>
    !(isSentinel v) &&
      (match pyFloatOfJVal v with
       | .val _ => true
       | _ => false)
  | _ => false

/-- Modelled from the spec's words: the number of qualifying elements of
the record's `data` sequence. -/
def specFactCount (fields : List (String × JVal)) : ℕ :=
  match dictGet fields "data" with
  | some (.arr items) => (items.filter specPairQualifies).length
  | _ => 0

theorem coerceValue_ok_some (v : JVal) (f : PyFloat)
    (h : coerceValue v = .ok (some f)) :
    isSentinel v = false ∧ pyFloatOfJVal v = .val f := by
  unfold coerceValue at h
  cases hs : isSentinel v with
  | true => rw [hs] at h; simp at h
  | false =>
    rw [hs] at h
    simp only [Bool.false_eq_true, if_false] at h
    cases hp : pyFloatOfJVal v with
    | val g =>
      rw [hp] at h
      simp only [Except.ok.injEq, Option.some.injEq] at h
      subst h
      exact ⟨rfl, rfl⟩
    | valueError => rw [hp] at h; simp at h
    | typeError => rw [hp] at h; simp at h
    | overflowError => rw [hp] at h; simp at h

theorem mkFact_ok_isSome (code : String) (sid item : JVal)
    (o : Option FactRow) (h : mkFact code sid item = .ok o) :
    o.isSome = specPairQualifies item := by
  match item with
  | .null | .bool _ | .int _ | .num _ | .str _ | .obj _ =>
    simp only [mkFact, Except.ok.injEq] at h
    subst h
    rfl
  | .arr [] =>
    simp only [mkFact, Except.ok.injEq] at h
    subst h
    rfl
  | .arr [_] =>
    simp only [mkFact, Except.ok.injEq] at h
    subst h
    rfl
  | .arr (_ :: _ :: _ :: _) =>
    simp only [mkFact, Except.ok.injEq] at h
    subst h
    rfl
  | .arr [d, v] =>
    simp only [mkFact] at h
    unfold specPairQualifies
    cases hc : coerceValue v with
    | error e => rw [hc] at h; simp at h
    | ok o2 =>
      rw [hc] at h
      cases o2 with
      | none =>
        simp only [Except.ok.injEq] at h
        subst h
        unfold coerceValue at hc
        cases hs : isSentinel v with
        | true => simp [hs]
        | false =>
          rw [hs] at hc
          simp only [Bool.false_eq_true, if_false] at hc
          cases hp : pyFloatOfJVal v with
          | val g => rw [hp] at hc; simp at hc
          | valueError => simp [hs, hp]
          | typeError => simp [hs, hp]
          | overflowError => rw [hp] at hc; simp at hc
      | some f =>
        simp only [Except.ok.injEq] at h
        subst h
        obtain ⟨hs, hp⟩ := coerceValue_ok_some v f hc
        simp [hs, hp]

theorem mkFact_ok_some (code : String) (sid item : JVal) (r : FactRow)
    (h : mkFact code sid item = .ok (some r)) :
    ∃ d v, item = JVal.arr [d, v] ∧
      coerceValue v = .ok (some r.value) ∧ r.timestamp = pyStr d := by
  match item with
  | .null | .bool _ | .int _ | .num _ | .str _ | .obj _ =>
    simp only [mkFact, Except.ok.injEq] at h
    exact absurd h (by simp)
  | .arr [] =>
    simp only [mkFact, Except.ok.injEq] at h
    exact absurd h (by simp)
  | .arr [_] =>
    simp only [mkFact, Except.ok.injEq] at h
    exact absurd h (by simp)
  | .arr (_ :: _ :: _ :: _) =>
    simp only [mkFact, Except.ok.injEq] at h
    exact absurd h (by simp)
  | .arr [d, v] =>
    simp only [mkFact] at h
    cases hc : coerceValue v with
    | error e => rw [hc] at h; simp at h
    | ok o2 =>
      rw [hc] at h
      cases o2 with
      | none => simp at h
      | some f =>
        simp only [Except.ok.injEq, Option.some.injEq] at h
        subst h
        exact ⟨d, v, rfl, hc, rfl⟩

theorem collectFacts_length (code : String) (sid : JVal)
    (items : List JVal) (fs : List FactRow)
    (h : collectFacts code sid items = .ok fs) :
    fs.length = items.countP specPairQualifies := by
  induction items generalizing fs with
  | nil =>
    simp only [collectFacts, Except.ok.injEq] at h
    subst h
    rfl
  | cons it rest ih =>
    simp only [collectFacts] at h
    cases hm : mkFact code sid it with
    | error e => rw [hm] at h; simp at h
    | ok o =>
      rw [hm] at h
      cases hr : collectFacts code sid rest with
      | error e => rw [hr] at h; simp at h
      | ok gs =>
        rw [hr] at h
        simp only [Except.ok.injEq] at h
        subst h
        have ho := mkFact_ok_isSome code sid it o hm
        rw [List.countP_cons, ← ih gs hr, ← ho]
        cases o with
        | none => simp
        | some r => simp [Nat.add_comm]

theorem collectFacts_mem (code : String) (sid : JVal)
    (items : List JVal) (fs : List FactRow)
    (h : collectFacts code sid items = .ok fs) :
    ∀ r ∈ fs, ∃ d v, JVal.arr [d, v] ∈ items ∧
      coerceValue v = .ok (some r.value) ∧ r.timestamp = pyStr d := by
  induction items generalizing fs with
  | nil =>
    simp only [collectFacts, Except.ok.injEq] at h
    subst h
    intro r hr
    exact absurd hr (List.not_mem_nil r)
  | cons it rest ih =>
    simp only [collectFacts] at h
    cases hm : mkFact code sid it with
    | error e => rw [hm] at h; simp at h
    | ok o =>
      rw [hm] at h
      cases hr2 : collectFacts code sid rest with
      | error e => rw [hr2] at h; simp at h
      | ok gs =>
        rw [hr2] at h
        simp only [Except.ok.injEq] at h
        subst h
        intro r hr
        rw [List.mem_append] at hr
        rcases hr with hro | hrg
        · cases o with
          | none => exact absurd hro (by simp)
          | some r0 =>
            simp only [Option.toList, List.mem_singleton] at hro
            subst hro
            obtain ⟨d, v, hitem, hc, ht⟩ :=
              mkFact_ok_some code sid it r hm
            exact ⟨d, v, by rw [← hitem]; exact List.mem_cons_self it rest,
              hc, ht⟩
        · obtain ⟨d, v, hin, hc, ht⟩ := ih gs hr2 r hrg
          exact ⟨d, v, List.mem_cons_of_mem it hin, hc, ht⟩

theorem collectFacts_drop_none (code : String) (sid : JVal) (bad : JVal)
    (hbad : mkFact code sid bad = .ok none) (pre post : List JVal) :
    collectFacts code sid (pre ++ bad :: post) =
      collectFacts code sid (pre ++ post) := by
  induction pre with
  | nil =>
    simp only [List.nil_append, collectFacts, hbad]
    cases h : collectFacts code sid post <;> simp
  | cons a pre ih =>
    simp only [List.cons_append, collectFacts, List.append_eq]
    rw [ih]

/-- C2 counterexample: the line is valid JSON with a `data` sequence
holding one qualifying pair, yet (`series_id` being absent) the
normalization of both `process_dataset` and `extract_time_series_data`
emits zero Fact Rows, not one. -/
theorem C2_fact_count_counterexample :
    normalizeParsed ⟨"NG", "Natural Gas"⟩
        (.obj [("data", .arr [.arr [.str "20240101", .num 1]])]) =
      .ok ([("dataset_code", .str "NG"),
            ("dataset_name", .str "Natural Gas")], []) ∧
    specFactCount [("data", .arr [.arr [.str "20240101", .num 1]])] = 1 ∧
    extract_time_series_data "NG"
        [.parsed (.obj [("data", .arr [.arr [.str "20240101", .num 1]])])] =
      .ok [] :=
  ⟨rfl, rfl, rfl⟩

/-- C2 (amended): for every decoded JSON object carrying both a
`series_id` field and a `data` list, when no pair value raises — the
pair loop either returns rows or raises an uncaught `OverflowError` — the
number of emitted Fact Rows equals the number of exactly-2-element pairs
whose value is non-sentinel and numerically parsable, the prices.py
extractor emits the same rows, and every emitted row's timestamp is the
stringified first pair component; when a pair value raises, both
normalizations abort with that error and emit nothing. -/
theorem C2_fact_count_amended (ctx : Ctx) (fields : List (String × JVal))
    (sid : JVal) (items : List JVal)
    (hsid : dictGet fields "series_id" = some sid)
    (hdata : dictGet fields "data" = some (.arr items)) :
    (∀ fs : List FactRow, collectFacts ctx.code sid items = .ok fs →
      ∃ row : MetaRow,
        normalizeParsed ctx (.obj fields) = .ok (row, fs) ∧
        fs.length = specFactCount fields ∧
        extract_time_series_data ctx.code [.parsed (.obj fields)] =
          .ok fs ∧
        ∀ r ∈ fs, ∃ d v, JVal.arr [d, v] ∈ items ∧
          coerceValue v = .ok (some r.value) ∧ r.timestamp = pyStr d) ∧
    (∀ e : PyError, collectFacts ctx.code sid items = .error e →
      normalizeParsed ctx (.obj fields) = .error e ∧
      extract_time_series_data ctx.code [.parsed (.obj fields)] =
        .error e) := by
  constructor
  · intro fs hok
    refine ⟨dictSet (dictSet (fields.filter (fun kv => !(kv.1 == "data")))
        "dataset_code" (.str ctx.code)) "dataset_name" (.str ctx.name),
      ?_, ?_, ?_, collectFacts_mem ctx.code sid items fs hok⟩
    · simp [normalizeParsed, hsid, hdata, hok]
    · rw [collectFacts_length ctx.code sid items fs hok,
        List.countP_eq_length_filter]
      simp [specFactCount, hdata]
    · simp [extract_time_series_data, extractTimeSeriesLine, hsid,
        hdata, hok]
  · intro e herr
    constructor
    · simp [normalizeParsed, hsid, hdata, herr]
    · simp [extract_time_series_data, extractTimeSeriesLine, hsid,
        hdata, herr]

/-- Witness for C2 (amended): at the scenario-1 line one qualifying pair
gives one emitted row; at a record whose pair value is the out-of-range
integer `10 ^ 400`, both extractors abort with `OverflowError`. -/
theorem C2_fact_count_amended_witness :
    (∃ row : MetaRow,
      normalizeParsed ⟨"NUC_STATUS", "U.S. Nuclear Outages"⟩
          (.obj [("series_id", .str "NUC_STATUS.OUT.US-NA.D"),
                 ("data", .arr [.arr [.str "20240101", .num (150.5 : ℚ)],
                                .arr [.str "20240102", .str "NM"]])]) =
        .ok (row,
          [⟨.str "NUC_STATUS.OUT.US-NA.D", "NUC_STATUS", "20240101",
            .finite (150.5 : ℚ)⟩]) ∧
      [FactRow.mk (.str "NUC_STATUS.OUT.US-NA.D") "NUC_STATUS" "20240101"
          (.finite (150.5 : ℚ))].length =
        specFactCount
          [("series_id", .str "NUC_STATUS.OUT.US-NA.D"),
           ("data", .arr [.arr [.str "20240101", .num (150.5 : ℚ)],
                          .arr [.str "20240102", .str "NM"]])] ∧
      extract_time_series_data "NUC_STATUS"
          [.parsed (.obj [("series_id", .str "NUC_STATUS.OUT.US-NA.D"),
                          ("data",
                           .arr [.arr [.str "20240101", .num (150.5 : ℚ)],
                                 .arr [.str "20240102", .str "NM"]])])] =
        .ok [⟨.str "NUC_STATUS.OUT.US-NA.D", "NUC_STATUS", "20240101",
              .finite (150.5 : ℚ)⟩] ∧
      ∀ r ∈ [FactRow.mk (.str "NUC_STATUS.OUT.US-NA.D") "NUC_STATUS"
          "20240101" (.finite (150.5 : ℚ))], ∃ d v,
        JVal.arr [d, v] ∈ [JVal.arr [.str "20240101", .num (150.5 : ℚ)],
                           JVal.arr [.str "20240102", .str "NM"]] ∧
        coerceValue v = .ok (some r.value) ∧ r.timestamp = pyStr d) ∧
    (normalizeParsed ⟨"NG", "Natural Gas"⟩
        (.obj [("series_id", .str "NG.A"),
               ("data", .arr [.arr [.str "2020",
                                    .int 10000000000000000000000000000000000000000000000000000000000000000000000000000000000000000000000000000000000000000000000000000000000000000000000000000000000000000000000000000000000000000000000000000000000000000000000000000000000000000000000000000000000000000000000000000000000000000000000000000000000000000000000000000000000000000000000000000000000000000000000000000000000000000000000000000000000000000]])]) =
      .error .overflowError ∧
      extract_time_series_data "NG"
          [.parsed (.obj [("series_id", .str "NG.A"),
                          ("data", .arr [.arr [.str "2020",
                                               .int 10000000000000000000000000000000000000000000000000000000000000000000000000000000000000000000000000000000000000000000000000000000000000000000000000000000000000000000000000000000000000000000000000000000000000000000000000000000000000000000000000000000000000000000000000000000000000000000000000000000000000000000000000000000000000000000000000000000000000000000000000000000000000000000000000000000000000000]])])] =
        .error .overflowError) :=
  ⟨(C2_fact_count_amended ⟨"NUC_STATUS", "U.S. Nuclear Outages"⟩
      [("series_id", JVal.str "NUC_STATUS.OUT.US-NA.D"),
       ("data", JVal.arr [JVal.arr [.str "20240101", .num (150.5 : ℚ)],
                          JVal.arr [.str "20240102", .str "NM"]])]
      (.str "NUC_STATUS.OUT.US-NA.D")
      [JVal.arr [.str "20240101", .num (150.5 : ℚ)],
       JVal.arr [.str "20240102", .str "NM"]] rfl rfl).1
      [⟨.str "NUC_STATUS.OUT.US-NA.D", "NUC_STATUS", "20240101",
        .finite (150.5 : ℚ)⟩] rfl,
   (C2_fact_count_amended ⟨"NG", "Natural Gas"⟩
      [("series_id", JVal.str "NG.A"),
       ("data", JVal.arr [JVal.arr [.str "2020",
                                    .int 10000000000000000000000000000000000000000000000000000000000000000000000000000000000000000000000000000000000000000000000000000000000000000000000000000000000000000000000000000000000000000000000000000000000000000000000000000000000000000000000000000000000000000000000000000000000000000000000000000000000000000000000000000000000000000000000000000000000000000000000000000000000000000000000000000000000000000]])]
      (.str "NG.A")
      [JVal.arr [.str "2020", .int 10000000000000000000000000000000000000000000000000000000000000000000000000000000000000000000000000000000000000000000000000000000000000000000000000000000000000000000000000000000000000000000000000000000000000000000000000000000000000000000000000000000000000000000000000000000000000000000000000000000000000000000000000000000000000000000000000000000000000000000000000000000000000000000000000000000000000000]] rfl rfl).2
      .overflowError rfl⟩

/-- C3 counterexample: the pair value `"NaN"` is not a sentinel and
`float("NaN")` succeeds, so `process_dataset` emits a Fact Row whose value
is NaN — not a finite number, contradicting the claimed invariant. -/
theorem C3_nan_value_counterexample :
    processLines ⟨"ELEC", "Electricity"⟩
        [.parsed (.obj [("series_id", .str "ELEC.X"),
                        ("data", .arr [.arr [.str "2024", .str "NaN"]])])] =
      .ok ([[("series_id", .str "ELEC.X"),
             ("dataset_code", .str "ELEC"),
             ("dataset_name", .str "Electricity")]],
           [⟨.str "ELEC.X", "ELEC", "2024", .nan⟩]) ∧
    extract_time_series_data "ELEC"
        [.parsed (.obj [("series_id", .str "ELEC.X"),
                        ("data", .arr [.arr [.str "2024", .str "NaN"]])])] =
      .ok [⟨.str "ELEC.X", "ELEC", "2024", .nan⟩] :=
  ⟨rfl, rfl⟩

/-- C3 (amended): every Fact Row emitted from a record arises from the
successful numeric coercion of a non-sentinel pair value — so no `None`
and no sentinel value is ever emitted — and a pair whose value is a
sentinel or fails conversion with `ValueError`/`TypeError` is dropped on
its own: removing it from `data` leaves the emitted rows unchanged.  A
pair value that is an out-of-range integer instead raises an uncaught
`OverflowError`, aborting the record and the dataset; and a value parsing
to NaN or overflowing to infinity is emitted as such, so finiteness is
not guaranteed. -/
theorem C3_value_provenance_amended (ctx : Ctx)
    (fields : List (String × JVal)) (sid : JVal) (items : List JVal)
    (hsid : dictGet fields "series_id" = some sid)
    (hdata : dictGet fields "data" = some (.arr items)) :
    (∀ fs : List FactRow, collectFacts ctx.code sid items = .ok fs →
      ∃ row : MetaRow,
        normalizeParsed ctx (.obj fields) = .ok (row, fs) ∧
        ∀ r ∈ fs, ∃ d v, JVal.arr [d, v] ∈ items ∧
          isSentinel v = false ∧ pyFloatOfJVal v = .val r.value) ∧
    (∀ (d v : JVal) (pre post : List JVal),
      items = pre ++ JVal.arr [d, v] :: post →
      coerceValue v = .ok none →
      collectFacts ctx.code sid items =
        collectFacts ctx.code sid (pre ++ post)) ∧
    (∀ (d : JVal) (n : ℤ) (rest2 : List JVal),
      items = JVal.arr [d, .int n] :: rest2 →
      ovfInt ≤ n →
      normalizeParsed ctx (.obj fields) = .error .overflowError) := by
  refine ⟨?_, ?_, ?_⟩
  · intro fs hok
    refine ⟨dictSet (dictSet (fields.filter (fun kv => !(kv.1 == "data")))
        "dataset_code" (.str ctx.code)) "dataset_name" (.str ctx.name),
      ?_, ?_⟩
    · simp [normalizeParsed, hsid, hdata, hok]
    · intro r hr
      obtain ⟨d, v, hin, hc, _⟩ :=
        collectFacts_mem ctx.code sid items fs hok r hr
      obtain ⟨hs, hp⟩ := coerceValue_ok_some v r.value hc
      exact ⟨d, v, hin, hs, hp⟩
  · intro d v pre post hsplit hdrop
    subst hsplit
    have hbad : mkFact ctx.code sid (.arr [d, v]) = .ok none := by
      simp only [mkFact]
      rw [hdrop]
    exact collectFacts_drop_none ctx.code sid _ hbad pre post
  · intro d n rest2 hsplit hn
    subst hsplit
    have hov : pyFloatOfJVal (.int n) = .overflowError := by
      simp only [pyFloatOfJVal]
      rw [if_pos (Or.inl hn)]
    have hcv : coerceValue (.int n) = .error .overflowError := by
      unfold coerceValue
      rw [hov]
      rfl
    have hcf : collectFacts ctx.code sid
        (JVal.arr [d, .int n] :: rest2) = .error .overflowError := by
      simp [collectFacts, mkFact, hcv]
    simp [normalizeParsed, hsid, hdata, hcf]

/-- Witness for C3 (amended) at concrete records: one mixing a good pair,
a sentinel pair and an unparsable pair (dropping the sentinel pair leaves
the rows unchanged), and one whose pair value is the out-of-range integer
`10 ^ 400` (the record aborts with `OverflowError`). -/
theorem C3_value_provenance_amended_witness :
    (∃ row : MetaRow,
      normalizeParsed ⟨"NG", "Natural Gas"⟩
          (.obj [("series_id", .str "NG.A"),
                 ("data", .arr [.arr [.str "2021", .num 3],
                                .arr [.str "2022", .str "NA"],
                                .arr [.str "2023", .str "oops"]])]) =
        .ok (row, [⟨.str "NG.A", "NG", "2021", .finite 3⟩]) ∧
      ∀ r ∈ [FactRow.mk (.str "NG.A") "NG" "2021" (.finite 3)], ∃ d v,
        JVal.arr [d, v] ∈ [JVal.arr [.str "2021", .num 3],
                           JVal.arr [.str "2022", .str "NA"],
                           JVal.arr [.str "2023", .str "oops"]] ∧
        isSentinel v = false ∧ pyFloatOfJVal v = .val r.value) ∧
    collectFacts "NG" (.str "NG.A")
        [JVal.arr [.str "2021", .num 3],
         JVal.arr [.str "2022", .str "NA"],
         JVal.arr [.str "2023", .str "oops"]] =
      collectFacts "NG" (.str "NG.A")
        ([JVal.arr [.str "2021", .num 3]] ++
          [JVal.arr [.str "2023", .str "oops"]]) ∧
    normalizeParsed ⟨"NG", "Natural Gas"⟩
        (.obj [("series_id", .str "NG.B"),
               ("data", .arr [.arr [.str "2020",
                                    .int 10000000000000000000000000000000000000000000000000000000000000000000000000000000000000000000000000000000000000000000000000000000000000000000000000000000000000000000000000000000000000000000000000000000000000000000000000000000000000000000000000000000000000000000000000000000000000000000000000000000000000000000000000000000000000000000000000000000000000000000000000000000000000000000000000000000000000000]])]) =
      .error .overflowError :=
  ⟨(C3_value_provenance_amended ⟨"NG", "Natural Gas"⟩
     [("series_id", JVal.str "NG.A"),
      ("data", JVal.arr [JVal.arr [.str "2021", .num 3],
                         JVal.arr [.str "2022", .str "NA"],
                         JVal.arr [.str "2023", .str "oops"]])]
     (.str "NG.A")
     [JVal.arr [.str "2021", .num 3],
      JVal.arr [.str "2022", .str "NA"],
      JVal.arr [.str "2023", .str "oops"]] rfl rfl).1
     [⟨.str "NG.A", "NG", "2021", .finite 3⟩] rfl,
   (C3_value_provenance_amended ⟨"NG", "Natural Gas"⟩
     [("series_id", JVal.str "NG.A"),
      ("data", JVal.arr [JVal.arr [.str "2021", .num 3],
                         JVal.arr [.str "2022", .str "NA"],
                         JVal.arr [.str "2023", .str "oops"]])]
     (.str "NG.A")
     [JVal.arr [.str "2021", .num 3],
      JVal.arr [.str "2022", .str "NA"],
      JVal.arr [.str "2023", .str "oops"]] rfl rfl).2.1 (.str "2022") (.str "NA")
     [JVal.arr [.str "2021", .num 3]]
     [JVal.arr [.str "2023", .str "oops"]] rfl rfl,
   (C3_value_provenance_amended ⟨"NG", "Natural Gas"⟩
     [("series_id", JVal.str "NG.B"),
      ("data", JVal.arr [JVal.arr [.str "2020", .int 10000000000000000000000000000000000000000000000000000000000000000000000000000000000000000000000000000000000000000000000000000000000000000000000000000000000000000000000000000000000000000000000000000000000000000000000000000000000000000000000000000000000000000000000000000000000000000000000000000000000000000000000000000000000000000000000000000000000000000000000000000000000000000000000000000000000000000]])]
     (.str "NG.B")
     [JVal.arr [.str "2020", .int 10000000000000000000000000000000000000000000000000000000000000000000000000000000000000000000000000000000000000000000000000000000000000000000000000000000000000000000000000000000000000000000000000000000000000000000000000000000000000000000000000000000000000000000000000000000000000000000000000000000000000000000000000000000000000000000000000000000000000000000000000000000000000000000000000000000000000000]] rfl rfl).2.2
     (.str "2020") ((10000000000000000000000000000000000000000000000000000000000000000000000000000000000000000000000000000000000000000000000000000000000000000000000000000000000000000000000000000000000000000000000000000000000000000000000000000000000000000000000000000000000000000000000000000000000000000000000000000000000000000000000000000000000000000000000000000000000000000000000000000000000000000000000000000000000000000 : ℤ)) [] rfl
     (by decide)⟩

/-- C4: a line that is not valid JSON contributes no Metadata Row and no
Fact Rows and raises nothing, and the remaining lines of the blob process
exactly as they would without it, in every modelled line loop
(`process_dataset`, series.py and prices.py); a blank line likewise. -/
theorem C4_invalid_line_soft_fail (ctx : Ctx) (code : String)
    (rest : List RawLine) :
    normalizeRawLine ctx .invalid = .ok (none, []) ∧
    processLines ctx (.invalid :: rest) = processLines ctx rest ∧
    processLines ctx (.blank :: rest) = processLines ctx rest ∧
    extract_series_metadata (.invalid :: rest) =
      extract_series_metadata rest ∧
    extract_time_series_data code (.invalid :: rest) =
      extract_time_series_data code rest := by
  refine ⟨rfl, ?_, ?_, rfl, rfl⟩
  · cases h : processLines ctx rest with
    | error e => simp [processLines, normalizeRawLine, h]
    | ok p => simp [processLines, normalizeRawLine, h]
  · cases h : processLines ctx rest with
    | error e => simp [processLines, normalizeRawLine, h]
    | ok p => simp [processLines, normalizeRawLine, h]

/-- Witness for C4 at a concrete blob: an invalid line followed by the
scenario-1 line processes exactly as the scenario-1 line alone. -/
theorem C4_invalid_line_soft_fail_witness :
    normalizeRawLine ⟨"NUC_STATUS", "U.S. Nuclear Outages"⟩ .invalid =
      .ok (none, []) ∧
    processLines ⟨"NUC_STATUS", "U.S. Nuclear Outages"⟩
        (.invalid :: [.parsed scenarioLine1]) =
      processLines ⟨"NUC_STATUS", "U.S. Nuclear Outages"⟩
        [.parsed scenarioLine1] :=
  ⟨(C4_invalid_line_soft_fail ⟨"NUC_STATUS", "U.S. Nuclear Outages"⟩
      "NUC_STATUS" [.parsed scenarioLine1]).1,
   (C4_invalid_line_soft_fail ⟨"NUC_STATUS", "U.S. Nuclear Outages"⟩
      "NUC_STATUS" [.parsed scenarioLine1]).2.1⟩

/-- C10: a valid-JSON line whose decoded value is not an object (a bare
number, string or list) raises an uncaught error in `process_dataset`
(`obj.items()` raises `AttributeError`, which the `except
json.JSONDecodeError` handler does not catch), aborting the dataset
including all later lines; the series.py loop aborts the same way. -/
theorem C10_non_object_line_aborts (ctx : Ctx) (rest : List RawLine) :
    normalizeRawLine ctx (.parsed (.num 7)) = .error .attributeError ∧
    processLines ctx (.parsed (.num 7) :: rest) =
      .error .attributeError ∧
    processLines ctx (.parsed (.str "x") :: rest) =
      .error .attributeError ∧
    processLines ctx (.parsed (.arr []) :: rest) =
      .error .attributeError ∧
    extract_series_metadata (.parsed (.num 7) :: rest) =
      .error .attributeError :=
  ⟨rfl, rfl, rfl, rfl, rfl⟩

/-- C5: per table, the Staleness Checkpoint is written exactly when that
table's upload call is made and succeeds (series first, then prices), and
only after it returns; a raising upload leaves the whole store unchanged
from that point on and fails the run.  The characterization equations
give both directions of "exactly when"; the two failure conjuncts show
the store untouched at the corresponding key and the run failing. -/
theorem C5_checkpoint_after_upload (ctx : Ctx) (now : ℤ)
    (sd : List MetaRow) (fd : List FactRow) (env : UploadEnv)
    (st : Store) :
    (sd ≠ [] → env.seriesOk = false →
      uploadPhase ctx now sd fd env st = (some .uploadError, st)) ∧
    ((sd = [] ∨ env.seriesOk = true) → fd ≠ [] → env.pricesOk = false →
      (uploadPhase ctx now sd fd env st).1 = some .uploadError ∧
      (uploadPhase ctx now sd fd env st).2 (pricesKey ctx.code) =
        st (pricesKey ctx.code)) ∧
    (uploadPhase ctx now sd fd env st).2 (seriesKey ctx.code) =
      (if !sd.isEmpty && env.seriesOk then
        some ⟨now, sd.length, ctx.code⟩
      else st (seriesKey ctx.code)) ∧
    (uploadPhase ctx now sd fd env st).2 (pricesKey ctx.code) =
      (if (sd.isEmpty || env.seriesOk) && (!fd.isEmpty && env.pricesOk)
      then some ⟨now, fd.length, ctx.code⟩
      else st (pricesKey ctx.code)) := by
  have hkey := seriesKey_ne_pricesKey ctx.code
  obtain ⟨sOk, pOk⟩ := env
  refine ⟨?_, ?_, ?_, ?_⟩
  · intro hsd hfail
    subst hfail
    simp [uploadPhase, List.isEmpty_iff, hsd]
  · intro hok hfd hfail
    subst hfail
    rcases hok with hsd | hsOk
    · subst hsd
      simp [uploadPhase, uploadPrices, List.isEmpty_iff, hfd]
    · subst hsOk
      by_cases hsd : sd = []
      · subst hsd
        simp [uploadPhase, uploadPrices, List.isEmpty_iff, hfd]
      · simp [uploadPhase, uploadPrices, saveState, List.isEmpty_iff,
          hsd, hfd, Ne.symm hkey]
  · by_cases hsd : sd = [] <;> by_cases hfd : fd = [] <;>
      cases sOk <;> cases pOk <;>
      simp [uploadPhase, uploadPrices, saveState, List.isEmpty_iff,
        hsd, hfd, hkey, Ne.symm hkey]
  · by_cases hsd : sd = [] <;> by_cases hfd : fd = [] <;>
      cases sOk <;> cases pOk <;>
      simp [uploadPhase, uploadPrices, saveState, List.isEmpty_iff,
        hsd, hfd, hkey, Ne.symm hkey]

/-- Witness for C5 at concrete inputs: a failing series upload leaves the
empty store empty and fails the run; a failing prices upload (after a
successful series upload) leaves the prices key unwritten. -/
theorem C5_checkpoint_after_upload_witness :
    (uploadPhase ⟨"COAL", "Coal"⟩ 1000
        [[("series_id", JVal.str "COAL.A")]] []
        ⟨false, true⟩ (fun _ => none) =
      (some .uploadError, fun _ => none)) ∧
    ((uploadPhase ⟨"COAL", "Coal"⟩ 1000
        [[("series_id", JVal.str "COAL.A")]]
        [⟨.str "COAL.A", "COAL", "2021", .finite 1⟩]
        ⟨true, false⟩ (fun _ => none)).1 = some .uploadError ∧
      (uploadPhase ⟨"COAL", "Coal"⟩ 1000
        [[("series_id", JVal.str "COAL.A")]]
        [⟨.str "COAL.A", "COAL", "2021", .finite 1⟩]
        ⟨true, false⟩ (fun _ => none)).2 (pricesKey "COAL") = none) :=
  ⟨(C5_checkpoint_after_upload ⟨"COAL", "Coal"⟩ 1000
      [[("series_id", JVal.str "COAL.A")]] [] ⟨false, true⟩
      (fun _ => none)).1 (by simp) rfl,
   (C5_checkpoint_after_upload ⟨"COAL", "Coal"⟩ 1000
      [[("series_id", JVal.str "COAL.A")]]
      [⟨.str "COAL.A", "COAL", "2021", .finite 1⟩] ⟨true, false⟩
      (fun _ => none)).2.1 (Or.inr rfl) (by simp) rfl⟩

/-- C6: with both per-table checkpoints present, `main.py` judges a
dataset stale exactly when either table's age reaches the window, the age
actually compared being that of the older (minimum) `last_updated`; a
missing checkpoint (or one without `last_updated`) on either side is
stale outright. -/
theorem C6_two_checkpoint_or (now su pu : ℤ)
    (s p : Option StoredState) :
    (needsUpdate now (some ⟨some su⟩) (some ⟨some pu⟩) = true ↔
      daysAgo now su ≥ 30 ∨ daysAgo now pu ≥ 30) ∧
    (needsUpdate now (some ⟨some su⟩) (some ⟨some pu⟩) = true ↔
      daysAgo now (min su pu) ≥ 30) ∧
    needsUpdate now none p = true ∧
    needsUpdate now (some ⟨none⟩) p = true ∧
    needsUpdate now s none = true ∧
    needsUpdate now s (some ⟨none⟩) = true := by
  have hmin : needsUpdate now (some ⟨some su⟩) (some ⟨some pu⟩) = true ↔
      daysAgo now (min su pu) ≥ 30 := by
    simp [needsUpdate, needsUpdateW]
  refine ⟨?_, hmin, rfl, rfl, ?_, ?_⟩
  · rw [hmin]
    constructor
    · intro hstale
      rcases le_total su pu with hle | hle
      · exact Or.inl (by rwa [min_eq_left hle] at hstale)
      · exact Or.inr (by rwa [min_eq_right hle] at hstale)
    · intro hor
      rcases hor with hs | hp
      · exact le_trans hs (daysAgo_le_daysAgo now (min_le_left su pu))
      · exact le_trans hp (daysAgo_le_daysAgo now (min_le_right su pu))
  · rcases s with _ | ⟨_ | lu⟩ <;> rfl
  · rcases s with _ | ⟨_ | lu⟩ <;> rfl

/-- C7: with a prior checkpoint, staleness is the inclusive comparison
`days_ago >= 30` in both `main.py` and `process_series`; an age of exactly
30 days is stale and an age strictly below 30 days is fresh (skipped). -/
theorem C7_inclusive_boundary (now lu : ℤ) :
    (seriesFreshSkip now (some ⟨some lu⟩) = false ↔ daysAgo now lu ≥ 30) ∧
    (needsUpdate now (some ⟨some lu⟩) (some ⟨some lu⟩) = true ↔
      daysAgo now lu ≥ 30) ∧
    (daysAgo now lu ≥ 30 ↔ now - lu ≥ 30 * 86400) ∧
    (now - lu = 30 * 86400 →
      seriesFreshSkip now (some ⟨some lu⟩) = false ∧
      needsUpdate now (some ⟨some lu⟩) (some ⟨some lu⟩) = true) ∧
    (now - lu < 30 * 86400 →
      seriesFreshSkip now (some ⟨some lu⟩) = true ∧
      needsUpdate now (some ⟨some lu⟩) (some ⟨some lu⟩) = false) := by
  have hiff : daysAgo now lu ≥ 30 ↔ now - lu ≥ 30 * 86400 := by
    unfold daysAgo
    rw [Int.fdiv_eq_ediv _ (by norm_num), ge_iff_le, ge_iff_le,
      Int.le_ediv_iff_mul_le (by norm_num)]
  have hskip : seriesFreshSkip now (some ⟨some lu⟩) = false ↔
      daysAgo now lu ≥ 30 := by
    simp [seriesFreshSkip]
  have hneeds : needsUpdate now (some ⟨some lu⟩) (some ⟨some lu⟩) = true ↔
      daysAgo now lu ≥ 30 := by
    simp [needsUpdate, needsUpdateW]
  refine ⟨hskip, hneeds, hiff, ?_, ?_⟩
  · intro hb
    have : daysAgo now lu ≥ 30 := hiff.mpr (le_of_eq hb.symm)
    exact ⟨hskip.mpr this, hneeds.mpr this⟩
  · intro hb
    have : ¬ daysAgo now lu ≥ 30 := fun h => absurd (hiff.mp h) (by omega)
    constructor
    · rcases Bool.eq_false_or_eq_true
        (seriesFreshSkip now (some ⟨some lu⟩)) with ht | hf
      · exact ht
      · exact absurd (hskip.mp hf) this
    · rcases Bool.eq_false_or_eq_true
        (needsUpdate now (some ⟨some lu⟩) (some ⟨some lu⟩)) with ht | hf
      · exact absurd (hneeds.mp ht) this
      · exact hf

/-- Witness for C7: at exactly 30 days the dataset is stale, at 30 days
minus one second it is fresh. -/
theorem C7_inclusive_boundary_witness :
    (seriesFreshSkip 2592000 (some ⟨some 0⟩) = false ∧
      needsUpdate 2592000 (some ⟨some 0⟩) (some ⟨some 0⟩) = true) ∧
    (seriesFreshSkip 2591999 (some ⟨some 0⟩) = true ∧
      needsUpdate 2591999 (some ⟨some 0⟩) (some ⟨some 0⟩) = false) :=
  ⟨(C7_inclusive_boundary 2592000 0).2.2.2.1 (by norm_num),
   (C7_inclusive_boundary 2591999 0).2.2.2.2 (by norm_num)⟩

/-- C8: a dataset with no prior checkpoint — no stored state, or stored
state without `last_updated`, on either table — is selected for
processing regardless of the freshness window. -/
theorem C8_no_checkpoint_always_stale (w now : ℤ)
    (s p : Option StoredState) :
    needsUpdateW w now none p = true ∧
    needsUpdateW w now (some ⟨none⟩) p = true ∧
    needsUpdateW w now s none = true ∧
    needsUpdateW w now s (some ⟨none⟩) = true ∧
    needsUpdate now none p = true ∧
    needsUpdate now s none = true := by
  refine ⟨rfl, rfl, ?_, ?_, rfl, ?_⟩ <;>
    rcases s with _ | ⟨_ | lu⟩ <;> rfl

theorem runBatch_partition (outcome : Dataset → UnitOutcome)
    (ds : List Dataset) :
    (runBatch outcome ds).1 =
      (ds.filter (fun d => subprocessSuccess (outcome d))).map
        Dataset.name ∧
    (runBatch outcome ds).2 =
      (ds.filter (fun d => !subprocessSuccess (outcome d))).map
        Dataset.name := by
  induction ds with
  | nil => exact ⟨rfl, rfl⟩
  | cons d rest ih =>
    cases h : subprocessSuccess (outcome d) with
    | true =>
      simp [runBatch, List.filter_cons, h, ih.1, ih.2]
    | false =>
      simp [runBatch, List.filter_cons, h, ih.1, ih.2]

/-- C9: the batch entry point runs exactly the stale datasets, in catalog
order, partitioning their names into succeeded and failed (every selected
dataset lands in exactly one side, whatever mix of failures and timeouts
occurs), and its own exit status is 0 on every input; the single-dataset
entry point exits non-zero exactly when processing its dataset raises. -/
theorem C9_supervisor_isolation (load : String → Option StoredState)
    (now : ℤ) (outcome : Dataset → UnitOutcome) (catalog : List Dataset)
    (ctx : Ctx) (lines : List RawLine) (env : UploadEnv) (st : Store) :
    (mainBatch load now outcome catalog).2 = 0 ∧
    (mainBatch load now outcome catalog).1.1 =
      (((catalog.filter (fun d => needsUpdate now
          (load (seriesKey d.code)) (load (pricesKey d.code)))).filter
        (fun d => subprocessSuccess (outcome d))).map Dataset.name) ∧
    (mainBatch load now outcome catalog).1.2 =
      (((catalog.filter (fun d => needsUpdate now
          (load (seriesKey d.code)) (load (pricesKey d.code)))).filter
        (fun d => !subprocessSuccess (outcome d))).map Dataset.name) ∧
    (singleMainExit ctx now lines env st ≠ 0 ↔
      (runProcessDataset ctx now lines env st).1 ≠ none) := by
  refine ⟨rfl, (runBatch_partition outcome _).1,
    (runBatch_partition outcome _).2, ?_⟩
  unfold singleMainExit
  cases h : (runProcessDataset ctx now lines env st).1 with
  | none => simp
  | some e => simp
